import Mathlib

/-!
Verification of the I2C HAL state machine in src/app/i2c_hal.c.

The file embeds the bus state machine, the interrupt callbacks and the
client-facing open/close/read/write operations of both personalities
(normal SH2 and DFU update mode) as pure Lean functions on an explicit
state record, and proves the stated properties about them.

Machine integers are modelled as Nat (all the quantities involved are
small and non-negative in the source: buffer lengths, timestamps,
counters); return codes are Int since the source returns negative error
codes through int. Byte buffers are lists of Nat. Calls into the bus
transfer engine (HAL_I2C_Master_Receive_IT / Transmit_IT) are modelled
by ghost fields counting outstanding transfers and recording the
requested transfer length; a completion interrupt delivers the received
bytes and decrements the counter before the completion callback runs.
-/

namespace I2cHal

/-- Bus states, translated from enum BusState_e in src/app/i2c_hal.c. -/
inductive BusState
  | BUS_INIT
  | BUS_IDLE
  | BUS_READING_LEN
  | BUS_GOT_LEN
  | BUS_READING_TRANSFER
  | BUS_WRITING
  | BUS_READING_DFU
  | BUS_WRITING_DFU
  deriving DecidableEq

/-- Modelled from the spec: sh2_err.h is not under src/. The spec calls the
return codes success, the already-open error and the bad-parameter error;
the source returns them through int, success being 0 and errors distinct
negative values. -/
def SH2_OK : Int := 0

/-- Modelled from the spec: the generic error value returned when an
instance is re-opened while already open (sh2_err.h is not under src/). -/
def SH2_ERR : Int := -1

/-- Modelled from the spec: the bad-parameter error value (sh2_err.h is
not under src/); distinct from SH2_OK, SH2_ERR and from every
non-negative byte count. -/
def SH2_ERR_BAD_PARAM : Int := -2

/-- Number of bytes read when reading the length field (READ_LEN). -/
def READ_LEN : Nat := 2

/-- SH2 peripheral 7-bit address (ADDR_SH2_0). -/
def ADDR_SH2_0 : Nat := 0x4A

/-- DFU peripheral 7-bit address (ADDR_DFU_0). -/
def ADDR_DFU_0 : Nat := 0x28

/-- Global mutable state of src/app/i2c_hal.c, as one record. The fields
rxOutstanding, txOutstanding and reqLen are ghost instrumentation of the
bus transfer engine: each HAL_I2C_Master_Receive_IT (resp. Transmit_IT)
call in the source increments the counter and records the requested
length, and a completion event decrements it. extiEnabled records
whether the INTN edge interrupt line is enabled at the NVIC
(enableInts / disableInts); enableI2cInts / disableI2cInts do not touch
it. -/
structure HalState where
  i2cBusState : BusState
  rxBuf : List Nat
  rxBufLen : Nat
  payloadLen : Nat
  rxDataReady : Bool
  discards : Nat
  rxTimestamp_uS : Nat
  inReset : Bool
  isOpen : Bool
  i2cAddr : Nat
  txBuf : List Nat
  extiEnabled : Bool
  rxOutstanding : Nat
  txOutstanding : Nat
  reqLen : Nat
  deriving DecidableEq

/-- State of the static variables at program load: zero-initialized, the
enum value 0 being BUS_INIT. -/
def initialState : HalState :=
  { i2cBusState := BusState.BUS_INIT
    rxBuf := []
    rxBufLen := 0
    payloadLen := 0
    rxDataReady := false
    discards := 0
    rxTimestamp_uS := 0
    inReset := false
    isOpen := false
    i2cAddr := 0
    txBuf := []
    extiEnabled := false
    rxOutstanding := 0
    txOutstanding := 0
    reqLen := 0 }

/-- Translation of HAL_I2C_MasterRxCpltCallback (lines 327-359). The bus
engine has already deposited the received bytes into rxBuf when this
callback runs. rxCap is sizeof(rxBuf), i.e. SH2_HAL_MAX_TRANSFER_IN,
kept as a parameter since the header defining it is not under src/.
The length decode is (rxBuf[0] + (rxBuf[1] << 8)) & ~0x8000 on uint16. -/
def HAL_I2C_MasterRxCpltCallback (rxCap : Nat) (s : HalState) : HalState :=
  if s.i2cBusState = BusState.BUS_READING_LEN then
    let len : Nat := Nat.land (s.rxBuf.getD 0 0 + s.rxBuf.getD 1 0 * 256) 0x7FFF
    let pl : Nat := if len > rxCap then rxCap else len
    { s with payloadLen := pl, i2cBusState := BusState.BUS_GOT_LEN }
  else if s.i2cBusState = BusState.BUS_READING_TRANSFER then
    { s with rxBufLen := s.payloadLen, i2cBusState := BusState.BUS_IDLE }
  else if s.i2cBusState = BusState.BUS_READING_DFU then
    { s with rxBufLen := s.payloadLen, i2cBusState := BusState.BUS_IDLE }
  else s

/-- Translation of HAL_I2C_MasterTxCpltCallback (lines 361-373). -/
def HAL_I2C_MasterTxCpltCallback (s : HalState) : HalState :=
  if s.i2cBusState = BusState.BUS_WRITING then
    { s with i2cBusState := BusState.BUS_IDLE }
  else if s.i2cBusState = BusState.BUS_WRITING_DFU then
    { s with i2cBusState := BusState.BUS_IDLE }
  else s

/-- Translation of HAL_GPIO_EXTI_Callback (lines 375-411). t is the value
of timeNowUs() at the moment of the edge. -/
def HAL_GPIO_EXTI_Callback (t : Nat) (s : HalState) : HalState :=
  if s.i2cBusState = BusState.BUS_INIT then
    s
  else
    let s1 := { s with rxTimestamp_uS := t, inReset := false }
    if s1.i2cBusState = BusState.BUS_IDLE then
      let s2 :=
        if s1.rxBufLen > 0 then
          { s1 with discards := s1.discards + 1, rxBufLen := 0 }
        else s1
      { s2 with i2cBusState := BusState.BUS_READING_LEN
                rxOutstanding := s2.rxOutstanding + 1
                reqLen := READ_LEN }
    else if s1.i2cBusState = BusState.BUS_GOT_LEN then
      { s1 with i2cBusState := BusState.BUS_READING_TRANSFER
                rxOutstanding := s1.rxOutstanding + 1
                reqLen := s1.payloadLen }
    else
      { s1 with rxDataReady := true }

/-- Result of a client read call: the int return value, the bytes copied
into the client buffer, the timestamp written through the out pointer
(none when the source does not write it), and the new state. -/
structure ReadResult where
  retval : Int
  out : List Nat
  tOut : Option Nat
  state : HalState
  deriving DecidableEq

/-- Deferred-start logic at the end of sh2_i2c_hal_read (lines 532-547):
if rxDataReady is set and the bus is idle, start the length read; if it
is set and the length is known, start the payload read; otherwise leave
the flag as it is. -/
def sh2_read_deferred (s : HalState) : HalState :=
  if s.rxDataReady then
    if s.i2cBusState = BusState.BUS_IDLE then
      { s with rxDataReady := false
               i2cBusState := BusState.BUS_READING_LEN
               rxOutstanding := s.rxOutstanding + 1
               reqLen := READ_LEN }
    else if s.i2cBusState = BusState.BUS_GOT_LEN then
      { s with rxDataReady := false
               i2cBusState := BusState.BUS_READING_TRANSFER
               rxOutstanding := s.rxOutstanding + 1
               reqLen := s.payloadLen }
    else s
  else s

/-- Translation of sh2_i2c_hal_read (lines 506-550). len is the client
buffer capacity. The enableInts() at line 530 re-enables the edge
interrupt, hence extiEnabled := true on every path. -/
def sh2_i2c_hal_read (len : Nat) (s : HalState) : ReadResult :=
  if s.rxBufLen > 0 then
    if len < s.rxBufLen then
      { retval := SH2_ERR_BAD_PARAM
        out := []
        tOut := none
        state := sh2_read_deferred { s with rxBufLen := 0, extiEnabled := true } }
    else
      { retval := (s.rxBufLen : Int)
        out := s.rxBuf.take s.rxBufLen
        tOut := some s.rxTimestamp_uS
        state := sh2_read_deferred { s with rxBufLen := 0, extiEnabled := true } }
  else
    { retval := 0
      out := []
      tOut := none
      state := sh2_read_deferred { s with extiEnabled := true } }

/-- Translation of sh2_i2c_hal_write (lines 552-580). The null pointer
check (pBuffer == 0) is modelled by isNull; len is data.length. memcpy
into the fixed-size txBuf overwrites its first len bytes. -/
def sh2_i2c_hal_write (txCap : Nat) (isNull : Bool) (data : List Nat)
    (s : HalState) : Int × HalState :=
  if isNull = true ∨ data.length = 0 ∨ data.length > txCap then
    (SH2_ERR_BAD_PARAM, s)
  else if s.i2cBusState = BusState.BUS_IDLE then
    ((data.length : Int),
      { s with i2cBusState := BusState.BUS_WRITING
               txBuf := data ++ s.txBuf.drop data.length
               txOutstanding := s.txOutstanding + 1
               reqLen := data.length })
  else
    (0, s)

/-- Translation of sh2_i2c_hal_open (lines 435-484). t is the timeNowUs
value at an INTN edge during the startup wait, and edgeDuringWait says
whether the peripheral asserted INTN within the START_DELAY_US window;
if it did, the edge handler runs during reset_delay_us. The function
returns SH2_OK in either case. enableInts() sets extiEnabled. -/
def sh2_i2c_hal_open (t : Nat) (edgeDuringWait : Bool) (s : HalState) :
    Int × HalState :=
  if s.isOpen then
    (SH2_ERR, s)
  else
    let s1 := { s with i2cBusState := BusState.BUS_IDLE
                       i2cAddr := ADDR_SH2_0 * 2
                       isOpen := true
                       inReset := true
                       extiEnabled := true
                       rxBufLen := 0
                       rxDataReady := false }
    (SH2_OK, if edgeDuringWait then HAL_GPIO_EXTI_Callback t s1 else s1)

/-- Translation of sh2_i2c_hal_close (lines 486-504): bus state back to
BUS_INIT, interrupts disabled, instance marked not open. -/
def sh2_i2c_hal_close (s : HalState) : HalState :=
  { s with i2cBusState := BusState.BUS_INIT
           extiEnabled := false
           isOpen := false }

/-- Translation of dfu_i2c_hal_open (lines 590-637). Only the I2C event
interrupts are enabled (enableI2cInts); the INTN edge interrupt line is
never enabled, so extiEnabled is left unchanged. -/
def dfu_i2c_hal_open (s : HalState) : Int × HalState :=
  if s.isOpen then
    (SH2_ERR, s)
  else
    (SH2_OK,
      { s with i2cBusState := BusState.BUS_IDLE
               i2cAddr := ADDR_DFU_0 * 2
               isOpen := true
               inReset := true
               rxBufLen := 0
               rxDataReady := false })

/-- Translation of dfu_i2c_hal_close (lines 639-654): interrupts disabled
and instance marked not open (the bus state variable is not touched). -/
def dfu_i2c_hal_close (s : HalState) : HalState :=
  { s with extiEnabled := false
           isOpen := false }

/-- Translation of dfu_i2c_hal_read (lines 656-691). When nothing is
buffered (and no DFU read is in flight), an idle bus starts a
fixed-length read of exactly len bytes, supplied by the caller. -/
def dfu_i2c_hal_read (len : Nat) (s : HalState) : ReadResult :=
  if s.i2cBusState ≠ BusState.BUS_READING_DFU ∧ s.rxBufLen > 0 then
    if len < s.rxBufLen then
      { retval := SH2_ERR_BAD_PARAM
        out := []
        tOut := none
        state := { s with rxBufLen := 0 } }
    else
      { retval := (s.rxBufLen : Int)
        out := s.rxBuf.take s.rxBufLen
        tOut := some s.rxTimestamp_uS
        state := { s with rxBufLen := 0 } }
  else
    if s.i2cBusState = BusState.BUS_IDLE then
      { retval := 0
        out := []
        tOut := none
        state := { s with i2cBusState := BusState.BUS_READING_DFU
                          payloadLen := len
                          rxOutstanding := s.rxOutstanding + 1
                          reqLen := len } }
    else
      { retval := 0, out := [], tOut := none, state := s }

/-- Translation of dfu_i2c_hal_write (lines 693-720); identical to the
SH2 variant except for the BUS_WRITING_DFU state. -/
def dfu_i2c_hal_write (txCap : Nat) (isNull : Bool) (data : List Nat)
    (s : HalState) : Int × HalState :=
  if isNull = true ∨ data.length = 0 ∨ data.length > txCap then
    (SH2_ERR_BAD_PARAM, s)
  else if s.i2cBusState = BusState.BUS_IDLE then
    ((data.length : Int),
      { s with i2cBusState := BusState.BUS_WRITING_DFU
               txBuf := data ++ s.txBuf.drop data.length
               txOutstanding := s.txOutstanding + 1
               reqLen := data.length })
  else
    (0, s)

/-- Events driving the normal-personality state machine: an INTN edge
carrying the current time, a read completion carrying the bytes the bus
engine deposited into rxBuf, a write completion, and the client read
and write calls. -/
inductive Event
  | edge (t : Nat)
  | rxCplt (received : List Nat)
  | txCplt
  | readCall (len : Nat)
  | writeCall (isNull : Bool) (data : List Nat)

/-- Small-step semantics: a completion event first retires the
outstanding transfer (depositing the received bytes, for a read) and
then runs the corresponding callback; the other events run the
corresponding handler or client call. -/
def step (rxCap txCap : Nat) (s : HalState) : Event → HalState
  | Event.edge t => HAL_GPIO_EXTI_Callback t s
  | Event.rxCplt received =>
      HAL_I2C_MasterRxCpltCallback rxCap
        { s with rxBuf := received, rxOutstanding := s.rxOutstanding - 1 }
  | Event.txCplt =>
      HAL_I2C_MasterTxCpltCallback { s with txOutstanding := s.txOutstanding - 1 }
  | Event.readCall len => (sh2_i2c_hal_read len s).state
  | Event.writeCall isNull data => (sh2_i2c_hal_write txCap isNull data s).2

/-- Run a sequence of events from a state. -/
def run (rxCap txCap : Nat) (s : HalState) (es : List Event) : HalState :=
  es.foldl (step rxCap txCap) s

/-- Number of outstanding read and write transfers a bus state implies:
exactly one read is in flight in the three reading states, exactly one
write in the two writing states, none otherwise. -/
def busOut : BusState → Nat × Nat
  | BusState.BUS_INIT => (0, 0)
  | BusState.BUS_IDLE => (0, 0)
  | BusState.BUS_GOT_LEN => (0, 0)
  | BusState.BUS_READING_LEN => (1, 0)
  | BusState.BUS_READING_TRANSFER => (1, 0)
  | BusState.BUS_READING_DFU => (1, 0)
  | BusState.BUS_WRITING => (0, 1)
  | BusState.BUS_WRITING_DFU => (0, 1)

/-- Invariant: the outstanding-transfer counters agree with what the bus
state implies. -/
def Inv (s : HalState) : Prop :=
  s.rxOutstanding = (busOut s.i2cBusState).1 ∧
  s.txOutstanding = (busOut s.i2cBusState).2

/-- Preservation: every event keeps the invariant. -/
theorem inv_step (rxCap txCap : Nat) (s : HalState) (e : Event) (h : Inv s) :
    Inv (step rxCap txCap s e) := by
  obtain ⟨h1, h2⟩ := h
  cases e <;>
    cases hb : s.i2cBusState <;>
      simp_all [step, Inv, busOut, HAL_GPIO_EXTI_Callback,
        HAL_I2C_MasterRxCpltCallback, HAL_I2C_MasterTxCpltCallback,
        sh2_i2c_hal_read, sh2_read_deferred, sh2_i2c_hal_write] <;>
      split_ifs <;> simp_all [Inv, busOut]

/-- Preservation along a whole event sequence. -/
theorem inv_run (rxCap txCap : Nat) (es : List Event) (s : HalState)
    (h : Inv s) : Inv (run rxCap txCap s es) := by
  induction es generalizing s with
  | nil => exact h
  | cons e es ih => exact ih _ (inv_step rxCap txCap s e h)

/-- State reached at the return of a successful normal-mode open: the
fields set in lines 442-465 of sh2_i2c_hal_open, with a possible edge
delivered during the startup wait. -/
theorem inv_opened (t : Nat) (edgeDuringWait : Bool) :
    Inv (sh2_i2c_hal_open t edgeDuringWait initialState).2 := by
  cases edgeDuringWait <;>
    simp [sh2_i2c_hal_open, initialState, HAL_GPIO_EXTI_Callback, Inv, busOut]

/-- C1: starting from the opened state, along every sequence of edge
events, completion events and client read/write calls, the bus state is
never BUS_IDLE while a transfer started by the state machine is
outstanding, and at no reachable state are two transfers outstanding at
once. -/
theorem c1_single_outstanding_transfer (rxCap txCap t : Nat)
    (edgeDuringWait : Bool) (es : List Event) :
    (((run rxCap txCap (sh2_i2c_hal_open t edgeDuringWait initialState).2
        es).i2cBusState = BusState.BUS_IDLE →
      (run rxCap txCap (sh2_i2c_hal_open t edgeDuringWait initialState).2
        es).rxOutstanding +
      (run rxCap txCap (sh2_i2c_hal_open t edgeDuringWait initialState).2
        es).txOutstanding = 0) ∧
     (run rxCap txCap (sh2_i2c_hal_open t edgeDuringWait initialState).2
        es).rxOutstanding +
     (run rxCap txCap (sh2_i2c_hal_open t edgeDuringWait initialState).2
        es).txOutstanding ≤ 1) := by
  have h := inv_run rxCap txCap es _ (inv_opened t edgeDuringWait)
  obtain ⟨h1, h2⟩ := h
  set s := run rxCap txCap (sh2_i2c_hal_open t edgeDuringWait initialState).2 es
  constructor
  · intro hidle
    rw [h1, h2, hidle]
    rfl
  · rw [h1, h2]
    cases s.i2cBusState <;> simp [busOut]

/-- Helper: the deferred-start logic never touches the receive buffer
length. -/
theorem sh2_read_deferred_rxBufLen (s : HalState) :
    (sh2_read_deferred s).rxBufLen = s.rxBufLen := by
  simp only [sh2_read_deferred]
  split_ifs <;> rfl

/-- Helper: masking with 0x7FFF is reduction mod 2^15. -/
theorem land_7FFF_eq_mod (x : Nat) : Nat.land x 0x7FFF = x % 32768 := by
  have h := Nat.and_pow_two_sub_one_eq_mod x 15
  norm_num at h
  exact h

/-- Helper: clamping from above is min. -/
theorem clamp_eq_min (x c : Nat) : (if x > c then c else x) = min x c := by
  rcases le_or_lt x c with h | h
  · rw [if_neg (not_lt.mpr h), min_eq_left h]
  · rw [if_pos h, min_eq_right h.le]

/-- C2: a read completion in the BUS_READING_LEN state stores, as the
payload length, the little-endian 16-bit value of the two received
bytes with bit 15 cleared, clamped to the receive buffer capacity, and
moves to BUS_GOT_LEN; the length word 0x8005 decodes exactly as 0x0005
does. -/
theorem c2_length_decode (rxCap b0 b1 : Nat) (s : HalState)
    (hb : s.i2cBusState = BusState.BUS_READING_LEN)
    (h0 : b0 < 256) (h1 : b1 < 256) :
    (HAL_I2C_MasterRxCpltCallback rxCap { s with rxBuf := [b0, b1] }).payloadLen
      = min ((b0 + 256 * b1) % 32768) rxCap ∧
    (HAL_I2C_MasterRxCpltCallback rxCap { s with rxBuf := [b0, b1] }).i2cBusState
      = BusState.BUS_GOT_LEN ∧
    (HAL_I2C_MasterRxCpltCallback rxCap { s with rxBuf := [0x05, 0x80] }).payloadLen
      = (HAL_I2C_MasterRxCpltCallback rxCap { s with rxBuf := [0x05, 0x00] }).payloadLen := by
  have hc : b0 + b1 * 256 = b0 + 256 * b1 := by ring
  refine ⟨?_, ?_, ?_⟩
  · simp [HAL_I2C_MasterRxCpltCallback, hb, List.getD, land_7FFF_eq_mod,
      clamp_eq_min, hc]
  · simp [HAL_I2C_MasterRxCpltCallback, hb]
  · simp [HAL_I2C_MasterRxCpltCallback, hb, List.getD, land_7FFF_eq_mod,
      clamp_eq_min]

/-- Witness for C2 at concrete bytes 0x05, 0x80 and capacity 128. -/
theorem c2_length_decode_witness :
    (HAL_I2C_MasterRxCpltCallback 128 { initialState with
        i2cBusState := BusState.BUS_READING_LEN,
        rxBuf := [5, 128] }).payloadLen = min ((5 + 256 * 128) % 32768) 128 :=
  (c2_length_decode 128 5 128 { initialState with
      i2cBusState := BusState.BUS_READING_LEN } rfl (by decide) (by decide)).1

/-- C3: the normal-personality read never delivers a truncated frame: a
buffered frame larger than the client capacity is dropped (length set
to 0, nothing copied) with the bad-parameter error; a frame that fits
is returned whole with its capture timestamp and the buffer cleared; an
empty buffer returns 0; and the returned count never exceeds the given
capacity. -/
theorem c3_read_never_truncates (len : Nat) (s : HalState)
    (hwf : s.rxBufLen ≤ s.rxBuf.length) :
    (0 < s.rxBufLen → len < s.rxBufLen →
        (sh2_i2c_hal_read len s).retval = SH2_ERR_BAD_PARAM ∧
        (sh2_i2c_hal_read len s).out = [] ∧
        (sh2_i2c_hal_read len s).state.rxBufLen = 0) ∧
    (0 < s.rxBufLen → s.rxBufLen ≤ len →
        (sh2_i2c_hal_read len s).retval = (s.rxBufLen : Int) ∧
        (sh2_i2c_hal_read len s).out = s.rxBuf.take s.rxBufLen ∧
        (sh2_i2c_hal_read len s).out.length = s.rxBufLen ∧
        (sh2_i2c_hal_read len s).tOut = some s.rxTimestamp_uS ∧
        (sh2_i2c_hal_read len s).state.rxBufLen = 0) ∧
    (s.rxBufLen = 0 → (sh2_i2c_hal_read len s).retval = 0) ∧
    (sh2_i2c_hal_read len s).retval ≤ (len : Int) := by
  refine ⟨?_, ?_, ?_, ?_⟩
  · intro hpos hlt
    simp [sh2_i2c_hal_read, hpos, hlt, sh2_read_deferred_rxBufLen]
  · intro hpos hge
    simp [sh2_i2c_hal_read, hpos, Nat.not_lt.mpr hge,
      sh2_read_deferred_rxBufLen, List.length_take, min_eq_left hwf]
  · intro hz
    simp [sh2_i2c_hal_read, hz]
  · rcases Nat.eq_zero_or_pos s.rxBufLen with hz | hpos
    · have h : (sh2_i2c_hal_read len s).retval = 0 := by
        simp [sh2_i2c_hal_read, hz]
      rw [h]
      exact Int.natCast_nonneg len
    · rcases lt_or_le len s.rxBufLen with hlt | hge
      · have h : (sh2_i2c_hal_read len s).retval = SH2_ERR_BAD_PARAM := by
          simp [sh2_i2c_hal_read, hpos, hlt]
        rw [h]
        have h2 := Int.natCast_nonneg len
        simp only [SH2_ERR_BAD_PARAM]
        omega
      · have h : (sh2_i2c_hal_read len s).retval = (s.rxBufLen : Int) := by
          simp [sh2_i2c_hal_read, hpos, Nat.not_lt.mpr hge]
        rw [h]
        exact_mod_cast hge

/-- Witness for C3 at a concrete buffered 2-byte frame and capacity 4. -/
theorem c3_read_never_truncates_witness :
    (sh2_i2c_hal_read 4 { initialState with
        rxBuf := [7, 9], rxBufLen := 2, rxTimestamp_uS := 55 }).retval = 2 :=
  ((c3_read_never_truncates 4 { initialState with
      rxBuf := [7, 9], rxBufLen := 2, rxTimestamp_uS := 55 }
      (by decide)).2.1 (by decide) (by decide)).1

/-- C4: both write personalities reject a null buffer, a zero length or
a length over the transmit capacity with the bad-parameter error and no
state change; with valid parameters they accept the full length and
copy the payload into the transmit buffer exactly when the bus state at
call time is BUS_IDLE, and otherwise return 0 leaving the transmit
buffer unchanged. -/
theorem c4_write_idle_only (txCap : Nat) (isNull : Bool) (data : List Nat)
    (s : HalState) :
    ((isNull = true ∨ data.length = 0 ∨ txCap < data.length) →
        (sh2_i2c_hal_write txCap isNull data s).1 = SH2_ERR_BAD_PARAM ∧
        (sh2_i2c_hal_write txCap isNull data s).2 = s ∧
        (dfu_i2c_hal_write txCap isNull data s).1 = SH2_ERR_BAD_PARAM ∧
        (dfu_i2c_hal_write txCap isNull data s).2 = s) ∧
    (isNull = false → 0 < data.length → data.length ≤ txCap →
      (s.i2cBusState = BusState.BUS_IDLE →
          (sh2_i2c_hal_write txCap isNull data s).1 = (data.length : Int) ∧
          (sh2_i2c_hal_write txCap isNull data s).2.txBuf.take data.length
            = data ∧
          (dfu_i2c_hal_write txCap isNull data s).1 = (data.length : Int) ∧
          (dfu_i2c_hal_write txCap isNull data s).2.txBuf.take data.length
            = data) ∧
      (s.i2cBusState ≠ BusState.BUS_IDLE →
          (sh2_i2c_hal_write txCap isNull data s).1 = 0 ∧
          (sh2_i2c_hal_write txCap isNull data s).2 = s ∧
          (dfu_i2c_hal_write txCap isNull data s).1 = 0 ∧
          (dfu_i2c_hal_write txCap isNull data s).2 = s)) := by
  constructor
  · intro hbad
    unfold sh2_i2c_hal_write dfu_i2c_hal_write
    split_ifs with h1
    · exact ⟨rfl, rfl, rfl, rfl⟩
    · exact absurd hbad h1
  · intro hn hpos hcap
    have hcond : ¬(isNull = true ∨ data.length = 0 ∨ data.length > txCap) := by
      push_neg
      exact ⟨by simp [hn], by omega, by omega⟩
    constructor
    · intro hidle
      unfold sh2_i2c_hal_write dfu_i2c_hal_write
      split_ifs
      exact ⟨rfl, List.take_left data _, rfl, List.take_left data _⟩
    · intro hbusy
      unfold sh2_i2c_hal_write dfu_i2c_hal_write
      split_ifs
      exact ⟨rfl, rfl, rfl, rfl⟩

/-- Witness for C4: a valid 2-byte write on the freshly opened idle bus
accepts both bytes. -/
theorem c4_write_idle_only_witness :
    (sh2_i2c_hal_write 4 false [1, 2]
      (sh2_i2c_hal_open 0 false initialState).2).1 = 2 :=
  (((c4_write_idle_only 4 false [1, 2]
      (sh2_i2c_hal_open 0 false initialState).2).2
      rfl (by decide) (by decide)).1 (by decide)).1

/-- Helper: the edge handler never changes the open flag. -/
theorem exti_callback_isOpen (t : Nat) (s : HalState) :
    (HAL_GPIO_EXTI_Callback t s).isOpen = s.isOpen := by
  simp only [HAL_GPIO_EXTI_Callback]
  split_ifs <;> rfl

/-- C5: opening an already-open instance fails with SH2_ERR and changes
nothing, for both personalities; and since the open flag is shared,
after either personality opens successfully the other cannot open. -/
theorem c5_reopen_fails (t : Nat) (b : Bool) (s : HalState)
    (h : s.isOpen = true) :
    (sh2_i2c_hal_open t b s).1 = SH2_ERR ∧
    (sh2_i2c_hal_open t b s).2 = s ∧
    (dfu_i2c_hal_open s).1 = SH2_ERR ∧
    (dfu_i2c_hal_open s).2 = s ∧
    (∀ s0 : HalState, s0.isOpen = false →
      (dfu_i2c_hal_open (sh2_i2c_hal_open t b s0).2).1 = SH2_ERR ∧
      (sh2_i2c_hal_open t b (dfu_i2c_hal_open s0).2).1 = SH2_ERR) := by
  refine ⟨by simp [sh2_i2c_hal_open, h], by simp [sh2_i2c_hal_open, h],
    by simp [dfu_i2c_hal_open, h], by simp [dfu_i2c_hal_open, h], ?_⟩
  intro s0 h0
  constructor
  · have hop : (sh2_i2c_hal_open t b s0).2.isOpen = true := by
      simp only [sh2_i2c_hal_open, h0]
      cases b <;> simp [exti_callback_isOpen]
    simp [dfu_i2c_hal_open, hop]
  · have hop : (dfu_i2c_hal_open s0).2.isOpen = true := by
      simp [dfu_i2c_hal_open, h0]
    simp [sh2_i2c_hal_open, hop]

/-- Witness for C5 at the concrete state reached after a successful
normal-mode open. -/
theorem c5_reopen_fails_witness :
    (sh2_i2c_hal_open 0 false (sh2_i2c_hal_open 0 false initialState).2).1
      = SH2_ERR :=
  (c5_reopen_fails 0 false (sh2_i2c_hal_open 0 false initialState).2
    (by decide)).1

/-- C6 counterexample: from a state with one recorded discard, close
followed by open leaves the discard counter at 1, not 0; the open path
in lines 435-484 never writes the discards variable. -/
theorem c6_counterexample :
    ¬(((sh2_i2c_hal_open 0 false (sh2_i2c_hal_close { initialState with
        discards := 1, isOpen := true, rxBuf := [1, 2, 3],
        rxBufLen := 3 })).2).discards = 0) := by
  decide

/-- C6 amended: close followed by open returns success, clears the
receive buffer and the pending-data flag (so a frame buffered before
close is no longer retrievable), but the discard counter keeps its
prior value; it is zero only from program start. -/
theorem c6_close_open_clears_buffer (t : Nat) (b : Bool) (s : HalState) :
    (sh2_i2c_hal_open t b (sh2_i2c_hal_close s)).1 = SH2_OK ∧
    ((sh2_i2c_hal_open t b (sh2_i2c_hal_close s)).2).rxBufLen = 0 ∧
    ((sh2_i2c_hal_open t b (sh2_i2c_hal_close s)).2).rxDataReady = false ∧
    ((sh2_i2c_hal_open t b (sh2_i2c_hal_close s)).2).discards = s.discards := by
  cases b <;>
    simp [sh2_i2c_hal_close, sh2_i2c_hal_open, HAL_GPIO_EXTI_Callback]

/-- C7 counterexample: with the bus idle after a DFU-mode open, an
invocation of the edge handler does not set the pending-data flag; it
starts the two-byte length read exactly as in normal mode (the handler
has no personality branch). -/
theorem c7_counterexample :
    (HAL_GPIO_EXTI_Callback 5 (dfu_i2c_hal_open initialState).2).rxDataReady
        = false ∧
    (HAL_GPIO_EXTI_Callback 5 (dfu_i2c_hal_open initialState).2).i2cBusState
        = BusState.BUS_READING_LEN ∧
    (HAL_GPIO_EXTI_Callback 5 (dfu_i2c_hal_open initialState).2).rxOutstanding
        = 1 ∧
    (HAL_GPIO_EXTI_Callback 5 (dfu_i2c_hal_open initialState).2).reqLen
        = READ_LEN := by
  decide

/-- C7 amended: the edge handler does not depend on the personality:
from any idle state it starts the two-byte length read and leaves the
pending-data flag as it was. Under the update personality no edge event
is ever delivered, because dfu open leaves the edge interrupt line
disabled (it only enables the I2C interrupts); the fixed-length read of
the caller-supplied size is started by the client read call from the
idle state instead. -/
theorem c7_dfu_fixed_read (s : HalState) (t len : Nat) :
    (s.i2cBusState = BusState.BUS_IDLE →
        (HAL_GPIO_EXTI_Callback t s).i2cBusState = BusState.BUS_READING_LEN ∧
        (HAL_GPIO_EXTI_Callback t s).rxDataReady = s.rxDataReady ∧
        (HAL_GPIO_EXTI_Callback t s).reqLen = READ_LEN ∧
        (HAL_GPIO_EXTI_Callback t s).rxOutstanding = s.rxOutstanding + 1) ∧
    ((dfu_i2c_hal_open s).2).extiEnabled = s.extiEnabled ∧
    ((dfu_i2c_hal_open (sh2_i2c_hal_close s)).2).extiEnabled = false ∧
    ((dfu_i2c_hal_open (dfu_i2c_hal_close s)).2).extiEnabled = false ∧
    (s.i2cBusState = BusState.BUS_IDLE → s.rxBufLen = 0 →
        (dfu_i2c_hal_read len s).state.i2cBusState
            = BusState.BUS_READING_DFU ∧
        (dfu_i2c_hal_read len s).state.reqLen = len ∧
        (dfu_i2c_hal_read len s).state.payloadLen = len ∧
        (dfu_i2c_hal_read len s).state.rxOutstanding
            = s.rxOutstanding + 1) := by
  refine ⟨?_, ?_, ?_, ?_, ?_⟩
  · intro hb
    by_cases hr : s.rxBufLen > 0 <;>
      simp [HAL_GPIO_EXTI_Callback, hb, hr]
  · unfold dfu_i2c_hal_open
    split_ifs <;> rfl
  · unfold dfu_i2c_hal_open sh2_i2c_hal_close
    split_ifs <;> rfl
  · unfold dfu_i2c_hal_open dfu_i2c_hal_close
    split_ifs <;> rfl
  · intro hb hr
    simp [dfu_i2c_hal_read, hb, hr]

/-- Witness for C7 amended: a 16-byte client read right after a DFU open
starts a 16-byte fixed-length read. -/
theorem c7_dfu_fixed_read_witness :
    (dfu_i2c_hal_read 16 (dfu_i2c_hal_open initialState).2).state.i2cBusState
      = BusState.BUS_READING_DFU :=
  ((c7_dfu_fixed_read (dfu_i2c_hal_open initialState).2 0 16).2.2.2.2
    (by decide) (by decide)).1

/-- C8: after the buffered-frame handling of a client read on the normal
personality, a set pending-data flag starts the deferred length read
when the bus is idle and starts the payload read of the previously
decoded length when the length is known, clearing the flag in both
cases; in every other state the flag stays set and no transfer is
started, and a clear flag never starts anything. -/
theorem c8_deferred_start (len : Nat) (s : HalState) :
    (s.rxDataReady = true → s.i2cBusState = BusState.BUS_IDLE →
        (sh2_i2c_hal_read len s).state.i2cBusState
            = BusState.BUS_READING_LEN ∧
        (sh2_i2c_hal_read len s).state.rxDataReady = false ∧
        (sh2_i2c_hal_read len s).state.reqLen = READ_LEN ∧
        (sh2_i2c_hal_read len s).state.rxOutstanding
            = s.rxOutstanding + 1) ∧
    (s.rxDataReady = true → s.i2cBusState = BusState.BUS_GOT_LEN →
        (sh2_i2c_hal_read len s).state.i2cBusState
            = BusState.BUS_READING_TRANSFER ∧
        (sh2_i2c_hal_read len s).state.rxDataReady = false ∧
        (sh2_i2c_hal_read len s).state.reqLen = s.payloadLen ∧
        (sh2_i2c_hal_read len s).state.rxOutstanding
            = s.rxOutstanding + 1) ∧
    (s.rxDataReady = true → s.i2cBusState ≠ BusState.BUS_IDLE →
        s.i2cBusState ≠ BusState.BUS_GOT_LEN →
        (sh2_i2c_hal_read len s).state.rxDataReady = true ∧
        (sh2_i2c_hal_read len s).state.i2cBusState = s.i2cBusState ∧
        (sh2_i2c_hal_read len s).state.rxOutstanding = s.rxOutstanding) ∧
    (s.rxDataReady = false →
        (sh2_i2c_hal_read len s).state.rxDataReady = false ∧
        (sh2_i2c_hal_read len s).state.i2cBusState = s.i2cBusState ∧
        (sh2_i2c_hal_read len s).state.rxOutstanding = s.rxOutstanding) := by
  refine ⟨?_, ?_, ?_, ?_⟩
  · intro hr hb
    unfold sh2_i2c_hal_read
    split_ifs <;> simp [sh2_read_deferred, hr, hb]
  · intro hr hb
    unfold sh2_i2c_hal_read
    split_ifs <;> simp [sh2_read_deferred, hr, hb]
  · intro hr hb1 hb2
    unfold sh2_i2c_hal_read
    split_ifs <;> simp [sh2_read_deferred, hr, hb1, hb2]
  · intro hr
    unfold sh2_i2c_hal_read
    split_ifs <;> simp [sh2_read_deferred, hr]

/-- Witness for C8: a read with the pending flag set on an idle bus
starts the length read. -/
theorem c8_deferred_start_witness :
    (sh2_i2c_hal_read 4 { initialState with
        i2cBusState := BusState.BUS_IDLE,
        rxDataReady := true }).state.i2cBusState
      = BusState.BUS_READING_LEN :=
  ((c8_deferred_start 4 { initialState with
      i2cBusState := BusState.BUS_IDLE, rxDataReady := true }).1 rfl rfl).1

/-- C9: once past the already-open check, the normal-mode open returns
SH2_OK whether or not the peripheral signalled data-ready within the
startup window; the startup wait has no failure path. -/
theorem c9_open_always_ok (t : Nat) (edgeDuringWait : Bool) (s : HalState)
    (h : s.isOpen = false) :
    (sh2_i2c_hal_open t edgeDuringWait s).1 = SH2_OK := by
  simp [sh2_i2c_hal_open, h]

/-- Witness for C9 with no edge inside the startup window. -/
theorem c9_open_always_ok_witness :
    (sh2_i2c_hal_open 0 false initialState).1 = SH2_OK :=
  c9_open_always_ok 0 false initialState rfl

/-- C10: an edge event arriving in the BUS_INIT state is ignored
completely: the handler returns with the whole state unchanged, so no
timestamp, flag, counter, buffer or bus-state update happens and no
transfer is started. -/
theorem c10_edge_ignored_before_open (t : Nat) (s : HalState)
    (h : s.i2cBusState = BusState.BUS_INIT) :
    HAL_GPIO_EXTI_Callback t s = s := by
  simp [HAL_GPIO_EXTI_Callback, h]

/-- Witness for C10 at the load-time state. -/
theorem c10_edge_ignored_before_open_witness :
    HAL_GPIO_EXTI_Callback 7 initialState = initialState :=
  c10_edge_ignored_before_open 7 initialState rfl

end I2cHal
